import Mathlib

/-!
Verification of the Resolve Fitness lead-generation agent (src/main.py).

The development shallowly embeds the data model and the core pipeline of the
program: the lead record, the default configuration tables, the keyword
scorer, the URL-based deduplicating merge, the persistence layer
(load and save of the leads file), the high-priority outreach selection, and
the daily cycle that composes them.

Modelling conventions:
- Python strings are Lean `String`; case folding and substring search are
  performed on the underlying character list (`String.data`), since the
  configured keyword tables are ASCII.  `Char.toLower` agrees with the Python
  lower-casing on that alphabet.
- Python integers that only ever accumulate non-negative weights are `Nat`.
- The persisted leads file is a `FileState`: `missing` (the file does not
  exist), `wellFormed data` (a parseable lead array), or `malformed written`
  (a UTF-8-decodable file whose contents do not parse back into a lead
  array, e.g. a truncated write; `written` records the record prefix that
  reached disk).  The byte level is `DiskFile`, which adds `undecodable`
  for a file whose raw bytes are not valid UTF-8: there json.load raises
  UnicodeDecodeError, an error class the load path does not catch.
- I/O failure during a save is an oracle argument `failAt : Option Nat`:
  `none` means the write completes, `some k` means the stream write raises
  after `k` records.  The file is opened in truncating write mode, so on
  failure the previous contents are already gone and only the prefix remains.
- The simulated 95 percent outreach success is an oracle `sendOk : Lead → Bool`.
- Booleans paired with results record whether the corresponding code path
  wrote an error entry to the log.
-/

namespace Resolve

/-- Lead record, from the `Lead` dataclass (src/main.py lines 35-54). -/
structure Lead where
  name : String
  platform : String
  profile_url : String
  content : String
  location : String
  score : Nat
  contact_method : String
  status : String := "new"
  created_at : String := ""
  last_contact : String := ""
  tags : List String := []
deriving DecidableEq

/-- Default high-priority keyword list (src/main.py lines 83-87). -/
def high_priority_keywords : List String :=
  ["tattoo friendly gym", "foreigner gym", "english gym",
   "expat gym", "international gym", "gaijin gym",
   "english speaking trainer", "tattoo ok gym"]

/-- Default medium-priority keyword list (src/main.py lines 88-92). -/
def medium_priority_keywords : List String :=
  ["gym recommendation", "fitness", "workout", "exercise",
   "crossfit", "boxing", "hiit", "personal trainer",
   "strength training", "muscle building"]

/-- Default target locations (src/main.py lines 98-102). -/
def target_locations : List String :=
  ["kanagawa", "kawasaki", "yokohama", "zama", "sagamihara",
   "atsugi", "yamato", "ebina", "machida", "fujisawa",
   "tokyo bay area", "kanto region"]

/-- Default target demographics (src/main.py lines 103-107). -/
def target_demographics : List String :=
  ["american", "canadian", "british", "australian", "european",
   "expat", "foreigner", "gaijin", "english teacher", "military",
   "international student", "english speaker"]

/-- Urgency word list hard-coded in the scorer (src/main.py line 282). -/
def urgency_words : List String :=
  ["need", "looking for", "help", "recommend", "urgent", "asap",
   "new to", "just moved"]

/-- Question indicators hard-coded in the scorer (src/main.py line 290). -/
def help_indicators : List String :=
  ["?", "anyone know", "does anyone", "help me"]

/-- Scoring weight for a high-priority keyword hit (src/main.py line 186). -/
def high_priority_weight : Nat := 15

/-- Scoring weight for a medium-priority keyword hit (src/main.py line 187). -/
def medium_priority_weight : Nat := 8

/-- Scoring weight for a location hit (src/main.py line 188). -/
def location_weight : Nat := 10

/-- Scoring weight for a demographic hit (src/main.py line 189). -/
def demographic_weight : Nat := 12

/-- Scoring weight for the urgency bonus (src/main.py line 190). -/
def urgency_weight : Nat := 8

/-- Platform bonus table lookup with default 0 (src/main.py lines 191, 278). -/
def platform_bonus (platform : String) : Nat :=
  if platform = "reddit" then 3
  else if platform = "facebook" then 5
  else if platform = "linkedin" then 7
  else 0

/-- Daily outreach cap from the default automation settings (src/main.py line 196). -/
def max_outreach_per_day : Nat := 10

/-- Lower-cased character view of a string, modelling Python str.lower over
the ASCII alphabet used by the configuration tables. -/
def lowerData (s : String) : List Char := s.data.map Char.toLower

/-- Substring occurrence test on character lists, modelling the Python
operator `in` for strings: the needle occurs at some position. -/
def substrAux (needle : List Char) : List Char → Bool
  | [] => needle.isEmpty
  | c :: rest => needle.isPrefixOf (c :: rest) || substrAux needle rest

/-- `containsSub haystack needle` models `needle in haystack` in Python. -/
def containsSub (haystack : List Char) (needle : String) : Bool :=
  substrAux needle.data haystack

/-- Replace each space with an underscore, modelling
`keyword.replace(" ", "_")` (src/main.py line 257). -/
def underscored (s : String) : String :=
  ⟨s.data.map (fun c => if c = ' ' then '_' else c)⟩

/-- One keyword-category loop of the scorer: fold over the configured items,
adding the weight and appending a tag for each item the hit predicate
accepts.  Instantiated for the high-priority, medium-priority, location and
demographic loops of score_lead (src/main.py lines 253-275). -/
def loopPass (items : List String) (hit : String → Bool) (w : Nat)
    (tagOf : String → String) (st : Nat × List String) : Nat × List String :=
  items.foldl (fun acc it => if hit it then (acc.1 + w, acc.2 ++ [tagOf it]) else acc) st

/-- The urgency loop of the scorer: the first matching urgency word adds the
urgency weight and the fixed tag "urgent", then the loop breaks
(src/main.py lines 281-287). -/
def urgencyPass (words : List String) (cl : List Char) (st : Nat × List String) :
    Nat × List String :=
  match words with
  | [] => st
  | w :: rest =>
    if containsSub cl w then (st.1 + urgency_weight, st.2 ++ ["urgent"])
    else urgencyPass rest cl st

/-- The accumulated (score, tags) state of score_lead just before the final
clamp (src/main.py lines 249-292): high-priority keywords, medium-priority
keywords, locations (matched against content and the location hint),
demographics (matched against content and the demographics hint), the
platform bonus, the urgency bonus, and the asking-for-help bonus, in the
order the code evaluates them. -/
def score_accum (content platform location demographics : String) : Nat × List String :=
  let cl := lowerData content
  let st1 := loopPass high_priority_keywords (fun k => containsSub cl k)
    high_priority_weight (fun k => "high_priority_" ++ underscored k) (0, [])
  let st2 := loopPass medium_priority_keywords (fun k => containsSub cl k)
    medium_priority_weight (fun k => "medium_priority_" ++ underscored k) st1
  let st3 := loopPass target_locations
    (fun lo => containsSub cl lo || containsSub (lowerData location) lo)
    location_weight (fun lo => "location_" ++ lo) st2
  let st4 := loopPass target_demographics
    (fun d => containsSub cl d || containsSub (lowerData demographics) d)
    demographic_weight (fun d => "demographic_" ++ d) st3
  let st5 := (st4.1 + platform_bonus platform, st4.2)
  let st6 := urgencyPass urgency_words cl st5
  if help_indicators.any (fun h => containsSub cl h) then
    (st6.1 + 5, st6.2 ++ ["asking_for_help"])
  else st6

/-- score_lead (src/main.py lines 247-294): the accumulated score capped at
100 by `min(score, 100)`, together with the tag list. -/
def score_lead (content platform location demographics : String) : Nat × List String :=
  ((score_accum content platform location demographics).1.min 100,
   (score_accum content platform location demographics).2)

/-- Score contribution of one keyword-category loop. -/
def loopScore (items : List String) (hit : String → Bool) (w : Nat) : Nat :=
  w * (items.filter hit).length

/-- Tags appended by one keyword-category loop. -/
def loopTags (items : List String) (hit : String → Bool) (tagOf : String → String) :
    List String :=
  (items.filter hit).map tagOf

/-- Score contribution of the urgency loop: the weight once if any urgency
word occurs, 0 otherwise. -/
def urgencyScore (cl : List Char) : Nat :=
  if urgency_words.any (fun w => containsSub cl w) then urgency_weight else 0

/-- Tags appended by the urgency loop. -/
def urgencyTags (cl : List Char) : List String :=
  if urgency_words.any (fun w => containsSub cl w) then ["urgent"] else []

/-- Score contribution of the asking-for-help check (literal 5 in the code). -/
def helpScore (cl : List Char) : Nat :=
  if help_indicators.any (fun h => containsSub cl h) then 5 else 0

/-- Tags appended by the asking-for-help check. -/
def helpTags (cl : List Char) : List String :=
  if help_indicators.any (fun h => containsSub cl h) then ["asking_for_help"] else []

/-- Deduplicating merge of run_daily_cycle (src/main.py lines 641-646):
collect the profile URLs already in the store, keep only incoming leads whose
URL is not among them, and extend the store with the survivors. -/
def merge_leads (existing incoming : List Lead) : List Lead :=
  let existing_urls := existing.map (fun l => l.profile_url)
  existing ++ incoming.filter (fun l => !(existing_urls.contains l.profile_url))

/-- State of the persisted leads file, as seen once the byte-level UTF-8
decode of the file has succeeded (or the file is missing).  `malformed`
covers exactly the error class the except clause of load_leads catches:
the decoded text is not a valid JSON lead array (json.JSONDecodeError, e.g.
after a truncated write) or its entries have the wrong shape so that
constructing a Lead raises TypeError; `written` records the record prefix
that reached disk.  A file whose raw bytes are not valid UTF-8 never
produces a FileState: that case lives in `DiskFile.undecodable` below. -/
inductive FileState where
  | missing : FileState
  | malformed (written : List Lead) : FileState
  | wellFormed (data : List Lead) : FileState
deriving DecidableEq

/-- The recovered portion of load_leads (src/main.py lines 226-236),
restricted to missing-or-decodable files: a missing file yields the empty
collection; a malformed file raises json.JSONDecodeError or TypeError,
which the except clause at line 233 catches, logs and turns into the empty
collection; a well-formed file yields its records.  The second component
records whether an error was logged.  The full embedding including the
uncaught byte-level error path is `read_leads_store`. -/
def load_leads : FileState → List Lead × Bool
  | FileState.missing => ([], false)
  | FileState.malformed _ => ([], true)
  | FileState.wellFormed data => (data, false)

/-- The on-disk leads file including the byte level: either a state the
load path can decode (or a missing file), or a file whose raw bytes are not
valid UTF-8. -/
inductive DiskFile where
  | decodable (fs : FileState) : DiskFile
  | undecodable : DiskFile
deriving DecidableEq

/-- Full embedding of load_leads (src/main.py lines 226-236) over the
on-disk file including the byte level.  On an existing file whose bytes are
not valid UTF-8, json.load raises UnicodeDecodeError inside the try block;
the except clause at line 233 catches only json.JSONDecodeError and
TypeError, so that exception escapes load_leads and propagates to the
caller (`Except.error`).  On every other file the recovered behaviour is
`load_leads`. -/
def read_leads_store : DiskFile → Except Unit (List Lead × Bool)
  | DiskFile.decodable fs => Except.ok (load_leads fs)
  | DiskFile.undecodable => Except.error ()

/-- save_leads (src/main.py lines 238-245): the file is opened in truncating
write mode and the full collection is serialised.  `failAt = none` models a
completed write; `failAt = some k` models an exception raised after `k`
records reached the stream, which the bare except clause catches and logs,
leaving a malformed file holding only that prefix.  The second component
records whether the error branch logged; no exception escapes. -/
def save_leads (leads : List Lead) (failAt : Option Nat) : FileState × Bool :=
  match failAt with
  | none => (FileState.wellFormed leads, false)
  | some k => (FileState.malformed (leads.take k), true)

/-- The filter of process_high_priority_leads (src/main.py lines 501-504):
score at least 20 and status "new". -/
def hp_filter (leads : List Lead) : List Lead :=
  leads.filter (fun l => decide (20 ≤ l.score) && (l.status == "new"))

/-- Descending stable comparison used by the Python
`sort(key=lambda x: x.score, reverse=True)` (src/main.py line 507). -/
def byScoreDesc (a b : Lead) : Bool := decide (b.score ≤ a.score)

/-- The outreach selection of process_high_priority_leads (src/main.py lines
499-511): filter to new leads scoring at least 20, stable-sort by descending
score, and cap at the configured daily maximum. -/
def high_priority_selection (leads : List Lead) : List Lead :=
  ((hp_filter leads).mergeSort byScoreDesc).take max_outreach_per_day

/-- Successful outreach mutation of send_outreach (src/main.py lines
486-489): status becomes "contacted" and last_contact is stamped. -/
def contact_lead (ts : String) (l : Lead) : Lead :=
  { l with status := "contacted", last_contact := ts }

/-- Per-lead effect of the outreach loop (src/main.py lines 515-522) on the
in-memory store: a lead is mutated exactly when it is among the selected
high-priority leads and its simulated send succeeds; every other lead is
untouched. -/
def outreach_update (leads : List Lead) (sendOk : Lead → Bool) (ts : String)
    (l : Lead) : Lead :=
  if (high_priority_selection leads).contains l && sendOk l then contact_lead ts l else l

/-- process_high_priority_leads (src/main.py lines 499-522) as a store
transformation: the selected leads whose send succeeds are marked contacted
in place; the rest of the store is unchanged. -/
def process_high_priority_leads (leads : List Lead) (sendOk : Lead → Bool)
    (ts : String) : List Lead :=
  leads.map (outreach_update leads sendOk ts)

/-- run_daily_cycle (src/main.py lines 622-668) restricted to its store
pipeline: load the existing leads, merge the incoming batch with URL
deduplication, run the outreach pass, and save.  The boolean result is the
status reported to the caller; save_leads swallows its own exceptions
(src/main.py lines 244-245), so the cycle always proceeds past the save and
reports success. -/
def run_daily_cycle (prev : FileState) (incoming : List Lead)
    (sendOk : Lead → Bool) (ts : String) (failAt : Option Nat) : FileState × Bool :=
  let existing := (load_leads prev).1
  let merged := merge_leads existing incoming
  let processed := process_high_priority_leads merged sendOk ts
  let saved := save_leads processed failAt
  (saved.1, true)

/-- Builder for concrete test leads; unspecified fields take the dataclass
defaults (status "new", empty timestamps, no tags). -/
def sample_lead (nm url : String) (sc : Nat) : Lead :=
  { name := nm, platform := "reddit", profile_url := url, content := "hello",
    location := "japan", score := sc, contact_method := "reddit_comment" }

/-- Content containing every configured keyword of all three tiers of
target_keywords (high_priority, medium_priority, location_specific). -/
def every_tier_content : String :=
  "tattoo friendly gym foreigner gym english gym expat gym international gym " ++
  "gaijin gym english speaking trainer tattoo ok gym gym recommendation " ++
  "fitness workout exercise crossfit boxing hiit personal trainer " ++
  "strength training muscle building kanagawa gym kawasaki gym yokohama gym " ++
  "zama gym sagamihara gym atsugi gym"

/-- A lead whose created_at lies far before any plausible retention cutoff. -/
def stale_lead : Lead :=
  { sample_lead "old" "https://reddit.com/user/old" 0 with
    created_at := "1970-01-01T00:00:00" }

/-- Synthetic store entry for the 1005-entry save scenario. -/
def synth_lead (i : Nat) : Lead :=
  sample_lead "synthetic" "https://example.com/synthetic" (i % 10)

/-- A store of 1005 synthetic entries. -/
def big_store : List Lead := (List.range 1005).map synth_lead

/-- The lead persisted before the failing save of the C4 scenario. -/
def prev_lead : Lead := sample_lead "prev" "https://reddit.com/user/prev" 0

/-- First incoming lead of the failing-save scenario. -/
def new_lead_a : Lead := sample_lead "na" "https://reddit.com/user/na" 0

/-- Second incoming lead of the failing-save scenario. -/
def new_lead_b : Lead := sample_lead "nb" "https://reddit.com/user/nb" 0

/-- Two distinct incoming leads sharing one profile URL. -/
def dup_lead_a : Lead := sample_lead "first" "https://reddit.com/user/dup" 0

/-- Second lead with the same profile URL as dup_lead_a. -/
def dup_lead_b : Lead := sample_lead "second" "https://reddit.com/user/dup" 0

/-- An existing stored lead for the merge witness. -/
def existing_lead : Lead := sample_lead "existing" "https://reddit.com/user/e" 30

/-- An incoming lead duplicating the URL of existing_lead. -/
def incoming_dup : Lead := sample_lead "incoming" "https://reddit.com/user/e" 40

/-- A lead scoring below the outreach threshold. -/
def low_lead : Lead := sample_lead "low" "https://reddit.com/user/low" 5

/-- Unfolding a keyword loop one step. -/
theorem loopPass_cons (a : String) (rest : List String) (hit : String → Bool)
    (w : Nat) (tagOf : String → String) (st : Nat × List String) :
    loopPass (a :: rest) hit w tagOf st
      = loopPass rest hit w tagOf
          (if hit a then (st.1 + w, st.2 ++ [tagOf a]) else st) := rfl

/-- A keyword loop adds its weight once per accepted item and appends one tag
per accepted item, in list order. -/
theorem loopPass_eq (items : List String) (hit : String → Bool) (w : Nat)
    (tagOf : String → String) (st : Nat × List String) :
    loopPass items hit w tagOf st
      = (st.1 + loopScore items hit w, st.2 ++ loopTags items hit tagOf) := by
  induction items generalizing st with
  | nil => simp [loopPass, loopScore, loopTags]
  | cons a rest ih =>
    rw [loopPass_cons, ih]
    by_cases h : hit a
    · simp [loopScore, loopTags, List.filter_cons, h, Prod.ext_iff, List.append_assoc,
        Nat.mul_succ]
      omega
    · simp [loopScore, loopTags, List.filter_cons, h]

/-- The urgency loop adds the urgency weight and the fixed tag at most once,
namely exactly when some urgency word occurs. -/
theorem urgencyPass_eq (words : List String) (cl : List Char) (st : Nat × List String) :
    urgencyPass words cl st
      = (if words.any (fun w => containsSub cl w) then
          (st.1 + urgency_weight, st.2 ++ ["urgent"]) else st) := by
  induction words with
  | nil => simp [urgencyPass]
  | cons a rest ih =>
    by_cases h : containsSub cl a
    · simp [urgencyPass, h]
    · simp [urgencyPass, h, ih]

/-- Full decomposition of the accumulated scorer state into per-category
score contributions and per-category tag blocks, in evaluation order. -/
theorem score_accum_eq (c p lo d : String) :
    score_accum c p lo d
      = (loopScore high_priority_keywords (fun k => containsSub (lowerData c) k)
            high_priority_weight
          + loopScore medium_priority_keywords (fun k => containsSub (lowerData c) k)
            medium_priority_weight
          + loopScore target_locations
            (fun x => containsSub (lowerData c) x || containsSub (lowerData lo) x)
            location_weight
          + loopScore target_demographics
            (fun x => containsSub (lowerData c) x || containsSub (lowerData d) x)
            demographic_weight
          + platform_bonus p + urgencyScore (lowerData c) + helpScore (lowerData c),
         loopTags high_priority_keywords (fun k => containsSub (lowerData c) k)
            (fun k => "high_priority_" ++ underscored k)
          ++ loopTags medium_priority_keywords (fun k => containsSub (lowerData c) k)
            (fun k => "medium_priority_" ++ underscored k)
          ++ loopTags target_locations
            (fun x => containsSub (lowerData c) x || containsSub (lowerData lo) x)
            (fun x => "location_" ++ x)
          ++ loopTags target_demographics
            (fun x => containsSub (lowerData c) x || containsSub (lowerData d) x)
            (fun x => "demographic_" ++ x)
          ++ urgencyTags (lowerData c) ++ helpTags (lowerData c)) := by
  simp only [score_accum, loopPass_eq, urgencyPass_eq]
  by_cases hu : urgency_words.any (fun w => containsSub (lowerData c) w) <;>
    by_cases hh : help_indicators.any (fun h => containsSub (lowerData c) h) <;>
      simp [hu, hh, urgencyScore, urgencyTags, helpScore, helpTags, Prod.ext_iff,
        List.append_assoc]

/-- A string starting with a character other than the letter u never equals
"urgent". -/
theorem append_ne_urgent (a s : String) (c0 : Char) (rest : List Char)
    (ha : a.data = c0 :: rest) (hc : c0 ≠ 'u') : a ++ s ≠ "urgent" := by
  intro h
  have h2 : (a ++ s).data = "urgent".data := congrArg String.data h
  rw [String.data_append, ha, List.cons_append] at h2
  have h3 : c0 :: (rest ++ s.data) = 'u' :: "rgent".data := h2
  exact hc (List.head_eq_of_cons_eq h3)

/-- Tags produced by a keyword loop whose tag builder never yields "urgent"
contribute no "urgent" occurrence. -/
theorem count_urgent_loopTags (items : List String) (hit : String → Bool)
    (tagOf : String → String) (h : ∀ k, tagOf k ≠ "urgent") :
    (loopTags items hit tagOf).count "urgent" = 0 := by
  rw [List.count_eq_zero]
  intro hmem
  rw [loopTags] at hmem
  obtain ⟨k, _, hk⟩ := List.mem_map.mp hmem
  exact h k hk

set_option maxRecDepth 100000 in
/-- C5: for every content, platform, location and demographics input, the
returned score is the accumulated sum of triggered weights capped at 100 by
min, hence at most 100 (and at least 0, being a sum of non-negative
weights, embedded as Nat); on content containing every configured keyword of
all tiers the raw sum exceeds the cap and the returned score is exactly
100. -/
theorem score_clamped (c p lo d : String) :
    (score_lead c p lo d).1 = Nat.min (score_accum c p lo d).1 100
    ∧ (score_lead c p lo d).1 ≤ 100
    ∧ 100 ≤ (score_accum every_tier_content "linkedin" "" "").1
    ∧ (score_lead every_tier_content "linkedin" "" "").1 = 100 := by
  have h3 : 100 ≤ (score_accum every_tier_content "linkedin" "" "").1 := by decide
  exact ⟨rfl, Nat.min_le_right _ _, h3, Nat.min_eq_right h3⟩

/-- C6: the high-priority keyword list is duplicate-free, the accumulated
score contains exactly the high-priority weight once per matching
high-priority keyword on top of the other category contributions, and each
matching keyword contributes its descriptive tag (category plus the matched
term with spaces replaced by underscores) to the returned tag sequence. -/
theorem high_priority_keyword_scoring (c p lo d : String) :
    high_priority_keywords.Nodup
    ∧ (score_accum c p lo d).1
      = high_priority_weight *
          (high_priority_keywords.filter (fun k => containsSub (lowerData c) k)).length
        + (loopScore medium_priority_keywords (fun k => containsSub (lowerData c) k)
            medium_priority_weight
          + loopScore target_locations
            (fun x => containsSub (lowerData c) x || containsSub (lowerData lo) x)
            location_weight
          + loopScore target_demographics
            (fun x => containsSub (lowerData c) x || containsSub (lowerData d) x)
            demographic_weight
          + platform_bonus p + urgencyScore (lowerData c) + helpScore (lowerData c))
    ∧ ∀ k ∈ high_priority_keywords, containsSub (lowerData c) k = true →
        ("high_priority_" ++ underscored k) ∈ (score_lead c p lo d).2 := by
  refine ⟨by decide, ?_, ?_⟩
  · have h := congrArg Prod.fst (score_accum_eq c p lo d)
    simp only at h
    rw [h, loopScore]
    omega
  · intro k hk hhit
    have hmem : ("high_priority_" ++ underscored k) ∈
        loopTags high_priority_keywords (fun k2 => containsSub (lowerData c) k2)
          (fun k2 => "high_priority_" ++ underscored k2) := by
      rw [loopTags]
      exact List.mem_map_of_mem _ (List.mem_filter.mpr ⟨hk, hhit⟩)
    simp only [score_lead]
    rw [score_accum_eq]
    simp only [List.mem_append]
    exact Or.inl (Or.inl (Or.inl (Or.inl (Or.inl hmem))))

set_option maxRecDepth 8000 in
/-- Witness for C6: concrete content matching one high-priority keyword
carries the corresponding descriptive tag. -/
theorem high_priority_keyword_scoring_witness :
    ("high_priority_" ++ underscored "tattoo friendly gym")
      ∈ (score_lead "Looking for a tattoo friendly gym" "reddit" "" "").2 :=
  (high_priority_keyword_scoring "Looking for a tattoo friendly gym" "reddit" "" "").2.2
    "tattoo friendly gym" (by decide) (by decide)

/-- C9: the urgency bonus is added to the score at most once (its
contribution is either 0 or the urgency weight, regardless of how many
urgency words occur), and the fixed tag "urgent" appears in the returned tag
sequence exactly once when some urgency word occurs and not at all
otherwise; no other category ever emits that tag. -/
theorem urgency_bonus_once (c p lo d : String) :
    (score_lead c p lo d).2.count "urgent"
      = (if urgency_words.any (fun w => containsSub (lowerData c) w) then 1 else 0)
    ∧ urgencyScore (lowerData c) ≤ urgency_weight
    ∧ (score_accum c p lo d).1
      = loopScore high_priority_keywords (fun k => containsSub (lowerData c) k)
          high_priority_weight
        + loopScore medium_priority_keywords (fun k => containsSub (lowerData c) k)
          medium_priority_weight
        + loopScore target_locations
          (fun x => containsSub (lowerData c) x || containsSub (lowerData lo) x)
          location_weight
        + loopScore target_demographics
          (fun x => containsSub (lowerData c) x || containsSub (lowerData d) x)
          demographic_weight
        + platform_bonus p + urgencyScore (lowerData c) + helpScore (lowerData c) := by
  refine ⟨?_, ?_, ?_⟩
  · simp only [score_lead]
    rw [score_accum_eq]
    simp only [List.count_append]
    rw [count_urgent_loopTags _ _ _
        (fun k => append_ne_urgent _ _ 'h' _ rfl (by decide)),
      count_urgent_loopTags _ _ _
        (fun k => append_ne_urgent _ _ 'm' _ rfl (by decide)),
      count_urgent_loopTags _ _ _
        (fun k => append_ne_urgent _ _ 'l' _ rfl (by decide)),
      count_urgent_loopTags _ _ _
        (fun k => append_ne_urgent _ _ 'd' _ rfl (by decide))]
    have hhelp : (helpTags (lowerData c)).count "urgent" = 0 := by
      rw [helpTags]
      split <;> decide
    rw [hhelp]
    rw [urgencyTags]
    split <;> decide
  · rw [urgencyScore]
    split <;> simp
  · have h := congrArg Prod.fst (score_accum_eq c p lo d)
    simpa using h

/-- The boolean membership filter of the merge coincides with the
propositional not-already-stored filter. -/
theorem merge_filter_decide (ex inc : List Lead) :
    inc.filter (fun l => !((ex.map (fun e => e.profile_url)).contains l.profile_url))
      = inc.filter (fun l => decide (l.profile_url ∉ ex.map (fun e => e.profile_url))) := by
  apply List.filter_congr
  intro a _
  by_cases hmem : a.profile_url ∈ ex.map (fun e => e.profile_url)
  · simp [hmem]
  · simp [hmem]

/-- C1: the merge keeps the existing collection unchanged as the initial
segment, appends exactly the incoming leads whose profile URL is not already
stored in their original relative order, and for a URL already present the
number of stored leads with that URL does not change. -/
theorem merge_dedup_spec (ex inc : List Lead) :
    (merge_leads ex inc).take ex.length = ex
    ∧ (merge_leads ex inc).drop ex.length
        = inc.filter (fun l => decide (l.profile_url ∉ ex.map (fun e => e.profile_url)))
    ∧ ∀ u, u ∈ ex.map (fun e => e.profile_url) →
        (merge_leads ex inc).countP (fun l => l.profile_url == u)
          = ex.countP (fun l => l.profile_url == u) := by
  refine ⟨?_, ?_, ?_⟩
  · simp only [merge_leads]
    exact List.take_left ex _
  · simp only [merge_leads]
    rw [List.drop_left]
    exact merge_filter_decide ex inc
  · intro u hu
    simp only [merge_leads]
    rw [List.countP_append]
    have hz : ((inc.filter
        (fun l => !((ex.map (fun e => e.profile_url)).contains l.profile_url))).countP
          (fun l => l.profile_url == u)) = 0 := by
      rw [List.countP_eq_zero]
      intro a ha
      rw [List.mem_filter] at ha
      have h2 : a.profile_url ∉ ex.map (fun e => e.profile_url) := by
        have := ha.2
        simpa using this
      intro hbeq
      have h3 : a.profile_url = u := by simpa using hbeq
      exact h2 (h3 ▸ hu)
    omega

/-- Witness for C1 at a concrete store and a batch duplicating its URL. -/
theorem merge_dedup_spec_witness :
    (merge_leads [existing_lead] [incoming_dup]).countP
        (fun l => l.profile_url == "https://reddit.com/user/e")
      = [existing_lead].countP (fun l => l.profile_url == "https://reddit.com/user/e") :=
  (merge_dedup_spec [existing_lead] [incoming_dup]).2.2 "https://reddit.com/user/e" (by decide)

/-- C7 amended: profile URLs remain pairwise distinct after a merge provided
the incoming batch itself carries pairwise distinct URLs; the code only
filters against URLs already stored, so this proviso is necessary. -/
theorem merge_unique_urls (ex inc : List Lead)
    (hex : ex.Pairwise (fun a b => a.profile_url ≠ b.profile_url))
    (hinc : inc.Pairwise (fun a b => a.profile_url ≠ b.profile_url)) :
    (merge_leads ex inc).Pairwise (fun a b => a.profile_url ≠ b.profile_url) := by
  simp only [merge_leads]
  rw [List.pairwise_append]
  refine ⟨hex, hinc.sublist (List.filter_sublist inc), ?_⟩
  intro a ha b hb
  rw [List.mem_filter] at hb
  have hnotin : b.profile_url ∉ ex.map (fun e => e.profile_url) := by
    have := hb.2
    simpa using this
  intro h
  exact hnotin (h ▸ List.mem_map_of_mem (fun e => e.profile_url) ha)

/-- Witness for the amended C7 at concrete duplicate-free inputs. -/
theorem merge_unique_urls_witness :
    (merge_leads [existing_lead] [dup_lead_a]).Pairwise
      (fun a b => a.profile_url ≠ b.profile_url) :=
  merge_unique_urls [existing_lead] [dup_lead_a] (by decide) (by decide)

/-- Counterexample to C7 as stated: an incoming batch containing two leads
with the same profile URL passes the deduplication filter together, so the
resulting store holds two leads sharing one URL. -/
theorem merge_unique_urls_cex :
    merge_leads [] [dup_lead_a, dup_lead_b] = [dup_lead_a, dup_lead_b]
    ∧ dup_lead_a.profile_url = dup_lead_b.profile_url
    ∧ ¬ (merge_leads [] [dup_lead_a, dup_lead_b]).Pairwise
        (fun a b => a.profile_url ≠ b.profile_url) :=
  ⟨by decide, by decide, by decide⟩

/-- Counterexample to C8 as stated: a persisted leads file whose bytes are
not valid UTF-8 is unparseable, yet loading it does not return the empty
collection — json.load raises UnicodeDecodeError, which the except clause
catching only json.JSONDecodeError and TypeError misses, and the failure
propagates to the caller as fatal. -/
theorem load_fatal_cex :
    read_leads_store DiskFile.undecodable = Except.error ()
    ∧ read_leads_store DiskFile.undecodable ≠ Except.ok ([], true)
    ∧ read_leads_store DiskFile.undecodable ≠ Except.ok ([], false) :=
  ⟨rfl, fun h => Except.noConfusion h, fun h => Except.noConfusion h⟩

/-- C8 amended: load failure is recovered only for the caught error class:
a UTF-8-decodable but malformed leads file (invalid JSON or
wrongly shaped entries) yields the empty collection and logs the error, a
missing file yields the empty collection without logging, and a well-formed
file yields its records; but a leads file with invalid UTF-8 bytes raises
UnicodeDecodeError, which is not caught, and the failure propagates to the
caller as fatal. -/
theorem load_error_partial_recovery :
    (∀ written, read_leads_store (DiskFile.decodable (FileState.malformed written))
        = Except.ok ([], true))
    ∧ read_leads_store (DiskFile.decodable FileState.missing) = Except.ok ([], false)
    ∧ (∀ data, read_leads_store (DiskFile.decodable (FileState.wellFormed data))
        = Except.ok (data, false))
    ∧ read_leads_store DiskFile.undecodable = Except.error () :=
  ⟨fun _ => rfl, rfl, fun _ => rfl, rfl⟩

/-- C3 amended: save_leads applies no maximum-size cap: a completed save
persists the whole collection unchanged, whatever its length. -/
theorem save_no_truncation (leads : List Lead) (n : Nat) (h : leads.length = n) :
    ∃ data, (save_leads leads none).1 = FileState.wellFormed data ∧ data.length = n :=
  ⟨leads, rfl, h⟩

/-- Witness for the amended C3: saving the 1005-entry synthetic store
persists all 1005 entries. -/
theorem save_no_truncation_witness :
    ∃ data, (save_leads big_store none).1 = FileState.wellFormed data
      ∧ data.length = 1005 :=
  save_no_truncation big_store 1005 (by simp [big_store])

/-- Counterexample to C3 as stated: after saving a 1005-entry store the
persisted store still holds 1005 entries, exceeding the claimed cap of
1000. -/
theorem save_truncation_cex :
    (save_leads big_store none).1 = FileState.wellFormed big_store
    ∧ big_store.length = 1005
    ∧ ¬ (big_store.length ≤ 1000) := by
  have h : big_store.length = 1005 := by simp [big_store]
  exact ⟨rfl, h, by rw [h]; omega⟩

/-- C2 amended: the cycle performs no retention pruning: every loaded lead
survives the merge and outreach passes into the saved file, its profile URL
and created_at unchanged, even when created_at lies before an arbitrary
cutoff. -/
theorem no_retention_pruning (prev : FileState) (inc : List Lead)
    (sendOk : Lead → Bool) (ts cutoff : String) (l : Lead)
    (hl : l ∈ (load_leads prev).1) (_hold : l.created_at.data < cutoff.data) :
    ∃ data, (run_daily_cycle prev inc sendOk ts none).1 = FileState.wellFormed data
      ∧ ∃ l2, l2 ∈ data ∧ l2.profile_url = l.profile_url
          ∧ l2.created_at = l.created_at := by
  refine ⟨process_high_priority_leads (merge_leads (load_leads prev).1 inc) sendOk ts,
    rfl, ?_⟩
  refine ⟨outreach_update (merge_leads (load_leads prev).1 inc) sendOk ts l, ?_, ?_, ?_⟩
  · exact List.mem_map_of_mem _ (by
      simp only [merge_leads]
      exact List.mem_append_left _ hl)
  · rw [outreach_update]
    split <;> rfl
  · rw [outreach_update]
    split <;> rfl

/-- Witness for the amended C2: the 1970 lead is still in the saved store. -/
theorem no_retention_pruning_witness :
    ∃ data, (run_daily_cycle (FileState.wellFormed [stale_lead]) [] (fun _ => false)
        "" none).1 = FileState.wellFormed data
      ∧ ∃ l2, l2 ∈ data ∧ l2.profile_url = stale_lead.profile_url
          ∧ l2.created_at = stale_lead.created_at :=
  no_retention_pruning (FileState.wellFormed [stale_lead]) [] (fun _ => false) ""
    "2026-10-12T00:00:00" stale_lead (by decide) (by decide)

/-- Counterexample to C2 as stated: a lead created in 1970 — older than any
configured retention window at any plausible run date — is still present in
the store saved by the next cycle. -/
theorem retention_pruning_cex :
    stale_lead.created_at.data < "2026-09-12T00:00:00".data
    ∧ (run_daily_cycle (FileState.wellFormed [stale_lead]) [] (fun _ => false)
        "" none).1 = FileState.wellFormed [stale_lead] := by
  constructor
  · decide
  · have h1 : (run_daily_cycle (FileState.wellFormed [stale_lead]) [] (fun _ => false)
        "" none).1
        = FileState.wellFormed (process_high_priority_leads (merge_leads [stale_lead] [])
            (fun _ => false) "") := rfl
    have hm : merge_leads [stale_lead] [] = [stale_lead] := rfl
    have hp : process_high_priority_leads [stale_lead] (fun _ => false) ""
        = [stale_lead] := by
      simp [process_high_priority_leads, outreach_update]
    rw [h1, hm, hp]

/-- C4 amended: an I/O failure during the save is logged inside save_leads
and swallowed there, so the cycle still reports success to its caller; the
file was opened in truncating write mode, so the failed write leaves a
malformed file holding only the prefix written before the failure — the
previously persisted contents are not preserved. -/
theorem save_failure_swallowed (prev : FileState) (inc : List Lead)
    (sendOk : Lead → Bool) (ts : String) (k : Nat) :
    run_daily_cycle prev inc sendOk ts (some k)
      = (FileState.malformed
          ((process_high_priority_leads (merge_leads (load_leads prev).1 inc)
            sendOk ts).take k), true)
    ∧ (save_leads (process_high_priority_leads (merge_leads (load_leads prev).1 inc)
        sendOk ts) (some k)).2 = true :=
  ⟨rfl, rfl⟩

/-- Counterexample to C4 as stated: with prev_lead persisted, a save failing
after one record leaves a malformed file holding only a prefix of the new
data — not the previous file — while the cycle reports success. -/
theorem save_failure_cex :
    (run_daily_cycle (FileState.wellFormed [prev_lead]) [new_lead_a, new_lead_b]
        (fun _ => false) "" (some 1)).2 = true
    ∧ (run_daily_cycle (FileState.wellFormed [prev_lead]) [new_lead_a, new_lead_b]
        (fun _ => false) "" (some 1)).1 = FileState.malformed [prev_lead]
    ∧ FileState.malformed [prev_lead] ≠ FileState.wellFormed [prev_lead] := by
  refine ⟨rfl, ?_, by decide⟩
  have h1 : (run_daily_cycle (FileState.wellFormed [prev_lead]) [new_lead_a, new_lead_b]
      (fun _ => false) "" (some 1)).1
      = FileState.malformed
          ((process_high_priority_leads
            (merge_leads [prev_lead] [new_lead_a, new_lead_b])
            (fun _ => false) "").take 1) := rfl
  have hm : merge_leads [prev_lead] [new_lead_a, new_lead_b]
      = [prev_lead, new_lead_a, new_lead_b] := by decide
  have hp : process_high_priority_leads [prev_lead, new_lead_a, new_lead_b]
      (fun _ => false) "" = [prev_lead, new_lead_a, new_lead_b] := by
    simp [process_high_priority_leads, outreach_update]
  rw [h1, hm, hp]
  rfl

/-- Every selected high-priority lead passed the score and status filter. -/
theorem selection_mem_filter (leads : List Lead) (l : Lead)
    (hl : l ∈ high_priority_selection leads) : l ∈ hp_filter leads := by
  have h1 : l ∈ (hp_filter leads).mergeSort byScoreDesc :=
    (List.take_sublist _ _).subset hl
  exact List.mem_mergeSort.mp h1

/-- Every selected high-priority lead scores at least 20 and is new. -/
theorem selection_score_status (leads : List Lead) (l : Lead)
    (hl : l ∈ high_priority_selection leads) : 20 ≤ l.score ∧ l.status = "new" := by
  have h := selection_mem_filter leads l hl
  rw [hp_filter, List.mem_filter] at h
  have h2 := h.2
  simp at h2
  exact h2

/-- The descending score comparison is transitive. -/
theorem byScoreDesc_trans :
    ∀ a b c : Lead, byScoreDesc a b → byScoreDesc b c → byScoreDesc a c := by
  intro a b c h1 h2
  simp [byScoreDesc] at h1 h2 ⊢
  omega

/-- The descending score comparison is total. -/
theorem byScoreDesc_total : ∀ a b : Lead, byScoreDesc a b || byScoreDesc b a := by
  intro a b
  simp [byScoreDesc]
  omega

/-- The outreach selection is sorted by descending score. -/
theorem selection_sorted (leads : List Lead) :
    (high_priority_selection leads).Pairwise (fun a b => b.score ≤ a.score) := by
  have h := List.sorted_mergeSort byScoreDesc_trans byScoreDesc_total (hp_filter leads)
  have h2 : ((hp_filter leads).mergeSort byScoreDesc).Pairwise
      (fun a b => b.score ≤ a.score) := by
    refine h.imp ?_
    intro a b hab
    simpa [byScoreDesc] using hab
  exact h2.sublist (List.take_sublist _ _)

/-- A lead below the outreach threshold is never touched by the outreach
pass. -/
theorem low_score_untouched (leads : List Lead) (sendOk : Lead → Bool) (ts : String)
    (l : Lead) (h : l.score < 20) : outreach_update leads sendOk ts l = l := by
  rw [outreach_update]
  have hc : ((high_priority_selection leads).contains l && sendOk l) = false := by
    cases hcl : (high_priority_selection leads).contains l with
    | false => simp
    | true =>
      exfalso
      have hmem : l ∈ high_priority_selection leads := by simpa using hcl
      have := (selection_score_status leads l hmem).1
      omega
  rw [hc]
  simp

/-- C10: the outreach step selects only new-status leads scoring at least
20, sorted by descending score and capped at the configured daily maximum;
a lead scoring below 20 is left untouched by the outreach pass (so it never
transitions to contacted), and the pass transforms the store pointwise by
the per-lead outreach update. -/
theorem outreach_threshold (leads : List Lead) (sendOk : Lead → Bool) (ts : String) :
    (∀ l ∈ high_priority_selection leads, 20 ≤ l.score ∧ l.status = "new")
    ∧ (high_priority_selection leads).Pairwise (fun a b => b.score ≤ a.score)
    ∧ (high_priority_selection leads).length ≤ max_outreach_per_day
    ∧ (∀ l, l.score < 20 → outreach_update leads sendOk ts l = l)
    ∧ process_high_priority_leads leads sendOk ts
        = leads.map (outreach_update leads sendOk ts) :=
  ⟨fun l hl => selection_score_status leads l hl,
   selection_sorted leads,
   List.length_take_le _ _,
   fun l h => low_score_untouched leads sendOk ts l h,
   rfl⟩

/-- Witness for C10: a score-5 lead is untouched by the outreach pass even
when every simulated send succeeds. -/
theorem outreach_threshold_witness :
    outreach_update [low_lead] (fun _ => true) "2026-10-12T00:00:00" low_lead
      = low_lead :=
  (outreach_threshold [low_lead] (fun _ => true) "2026-10-12T00:00:00").2.2.2.1
    low_lead (by decide)

end Resolve
